import Mathlib

/-!
Verification development for the linksly URL shortener.

This file gives a shallow embedding of the server's link-service,
click-recorder and analytics logic (src/unnamed/part_003, the Express
handlers), of the URL helpers (src/src/lib/utils.ts), of the relevant
client-side form check (src/unnamed/part_001, LinkShortener.validateForm),
over the relational data model declared in the Prisma schema
(src/unnamed/part_000).  The relational store is embedded as explicit
lists of rows; each HTTP handler becomes a pure function from a store and
the request inputs to a result and an updated store.  Machine-supplied
inputs that the code obtains from libraries or the runtime — the clock
(`new Date()` / `Date.now()`), the generated short code (`nanoid(8)`) and
the generated row ids (`cuid()`) — are passed in explicitly through an
`Env` record.  Timestamps are integer milliseconds.
-/

namespace Linksly

/-- A row of the `links` table (Prisma schema, src/unnamed/part_000).
`id` is the cuid primary key, modelled as a `Nat` supplied by the
environment.  `createdAt`/`updatedAt`/`expiresAt` are millisecond
timestamps. -/
structure Link where
  id : Nat
  originalUrl : String
  shortCode : String
  customAlias : Option String
  title : Option String
  description : Option String
  createdAt : Int
  updatedAt : Int
  expiresAt : Option Int
  isActive : Bool
  totalClicks : Nat
deriving Repr, DecidableEq

/-- A row of the `clicks` table (Prisma schema, src/unnamed/part_000). -/
structure Click where
  id : Nat
  linkId : Nat
  ip : Option String
  userAgent : Option String
  referer : Option String
  country : Option String
  city : Option String
  device : Option String
  browser : Option String
  os : Option String
  createdAt : Int
deriving Repr, DecidableEq

/-- The relational store: the `links` and `clicks` tables.  (The schema's
`api_keys` table is exercised by no handler in scope and is omitted.) -/
structure Store where
  links : List Link
  clicks : List Click
deriving Repr, DecidableEq

/-- Machine-supplied inputs of one handler invocation: the clock
(`new Date()`), the fresh row ids (`cuid()` defaults of the schema) and
the generated short code (`nanoid(8)`). -/
structure Env where
  now : Int
  newLinkId : Nat
  newClickId : Nat
  generatedCode : String
deriving Repr, DecidableEq

/-- The empty store (a fresh database). -/
def emptyStore : Store := { links := [], clicks := [] }

/-! ### URL validation (external WHATWG URL constructor) -/

/-- A scheme may start with an ASCII letter. -/
def isSchemeStart (c : Char) : Bool := c.isAlpha

/-- Subsequent scheme characters: ASCII alphanumeric, `+`, `-` or `.`. -/
def isSchemeChar (c : Char) : Bool := c.isAlphanum || c = '+' || c = '-' || c = '.'

/-- Splits `scheme ':' rest` off a character list, or `none` when the
string has no well-formed scheme prefix. -/
def splitScheme : List Char → Option (List Char × List Char)
  | [] => none
  | c :: cs => if isSchemeStart c then go [c] cs else none
where
  go (acc : List Char) : List Char → Option (List Char × List Char)
    | [] => none
    | ':' :: rest => some (acc.reverse, rest)
    | c :: cs => if isSchemeChar c then go (c :: acc) cs else none

/-- The special schemes of the WHATWG URL standard. -/
def specialSchemes : List String := ["ftp", "file", "http", "https", "ws", "wss"]

/-- Characters that terminate the host component. -/
def hostDelim (c : Char) : Bool := c = '/' || c = '?' || c = '#'

/-- Modelled from the spec: the platform's WHATWG URL constructor
(`new URL(string)`), which is external to the repository; it backs both
zod's `.url()` check in `createLinkSchema` (src/unnamed/part_003, line 44)
and `isValidUrl` in src/src/lib/utils.ts.  The spec calls its acceptance
condition "a well-formed absolute URL".  An absolute URL must carry a
scheme prefix `alpha (alphanum | + | - | .)* ':'`; a special scheme
(http, https, ws, wss, ftp, file) additionally needs a nonempty host.
Finer host/port validation is outside the modelled fragment and no claim
depends on it. -/
def urlParses (s : String) : Bool :=
  match splitScheme s.toList with
  | none => false
  | some (sch, rest) =>
    let scheme := String.mk (sch.map Char.toLower)
    if specialSchemes.contains scheme then
      let afterSlashes := rest.dropWhile (fun c => c = '/' || c = '\\')
      let host := afterSlashes.takeWhile (fun c => !(hostDelim c))
      !host.isEmpty
    else
      true

/-- `isValidUrl` from src/src/lib/utils.ts: `new URL(string)` succeeds. -/
def isValidUrl (s : String) : Bool := urlParses s

/-- Prefix test on the underlying character lists (JS
`String.prototype.startsWith`); written out structurally so that it
evaluates by kernel reduction. -/
def strStartsWith (s p : String) : Bool := go s.toList p.toList
where
  go : List Char → List Char → Bool
    | _, [] => true
    | [], _ :: _ => false
    | c :: cs, d :: ds => c == d && go cs ds

/-- `formatUrl` from src/src/lib/utils.ts: prefix `https://` unless the
string already starts with `http://` or `https://`. -/
def formatUrl (url : String) : String :=
  if !(strStartsWith url "http://") && !(strStartsWith url "https://") then
    "https://" ++ url
  else
    url

/-! ### Create (POST /api/links, src/unnamed/part_003 lines 106-147) -/

/-- The request body accepted by `createLinkSchema` (src/unnamed/part_003
lines 43-49).  `expiresAt` is carried as an already-parsed millisecond
timestamp; zod's `.datetime()` format check on the raw string is not
claim-relevant and is outside the modelled fragment. -/
structure CreateBody where
  originalUrl : String
  customAlias : Option String
  title : Option String
  description : Option String
  expiresAt : Option Int
deriving Repr, DecidableEq

/-- Outcome of the create handler. -/
inductive CreateResult where
  /-- 201: the row that was inserted. -/
  | created (link : Link)
  /-- 400 `Invalid input data`: `createLinkSchema.parse` threw (zod). -/
  | validationError
  /-- 400 `Invalid URL`: `isValidUrl(formattedUrl)` failed. -/
  | invalidUrl
  /-- 400 `Custom alias already exists`. -/
  | aliasConflict
  /-- 500 `Internal server error`: the store rejected the insert
  (uniqueness violation surfaces here — the catch block maps only
  `ZodError` to 400). -/
  | storeError
deriving Repr, DecidableEq

/-- HTTP status produced for each create outcome (src/unnamed/part_003
lines 113, 124, 139, 143, 145). -/
def createStatus : CreateResult → Nat
  | .created _ => 201
  | .validationError => 400
  | .invalidUrl => 400
  | .aliasConflict => 400
  | .storeError => 500

/-- The Link row inserted by `prisma.link.create` (src/unnamed/part_003
lines 128-137) with the schema defaults `isActive=true`, `totalClicks=0`,
`createdAt`/`updatedAt = now`. -/
def newLink (env : Env) (body : CreateBody) (shortCodeVal : String) : Link :=
  { id := env.newLinkId
    originalUrl := formatUrl body.originalUrl
    shortCode := shortCodeVal
    customAlias := body.customAlias
    title := body.title
    description := body.description
    createdAt := env.now
    updatedAt := env.now
    expiresAt := body.expiresAt
    isActive := true
    totalClicks := 0 }

/-- The create handler (src/unnamed/part_003 lines 106-147).
Order of effects, as in the source: zod parse (`.url()` on
`originalUrl`), `formatUrl`, `isValidUrl`, `shortCode = customAlias ||
nanoid(8)` (JS `||`: the alias is used only when truthy, i.e. nonempty),
the `findUnique({where: {customAlias}})` conflict pre-check (guarded by
`if (customAlias)`), then `prisma.link.create`, whose `@unique`
constraints on `shortCode` and `customAlias` reject a duplicate (NULL
aliases never collide); such a store rejection reaches the generic catch
block.  Failures leave the store unchanged. -/
def createLink (st : Store) (env : Env) (body : CreateBody) : CreateResult × Store :=
  if urlParses body.originalUrl = false then (.validationError, st)
  else if isValidUrl (formatUrl body.originalUrl) = false then (.invalidUrl, st)
  else
    let aliasVal := body.customAlias.getD ""
    let shortCodeVal := if aliasVal = "" then env.generatedCode else aliasVal
    if aliasVal ≠ "" ∧ st.links.any (fun l => l.customAlias == some aliasVal) then
      (.aliasConflict, st)
    else if st.links.any (fun l => l.shortCode == shortCodeVal)
        ∨ (body.customAlias.isSome ∧ st.links.any (fun l => l.customAlias == body.customAlias)) then
      (.storeError, st)
    else
      (.created (newLink env body shortCodeVal),
       { st with links := st.links ++ [newLink env body shortCodeVal] })

/-! ### Resolve and redirect (GET /s/:shortCode, src/unnamed/part_003 lines 296-340) -/

/-- `prisma.link.findFirst` with
`where: { OR: [{shortCode}, {customAlias: shortCode}], isActive: true }`
(src/unnamed/part_003 lines 300-308): the first row whose `shortCode` or
`customAlias` equals the code and which is active. -/
def findLink (st : Store) (code : String) : Option Link :=
  st.links.find? (fun l => (l.shortCode == code || l.customAlias == some code) && l.isActive)

/-- The expiry test `link.expiresAt && new Date() > link.expiresAt`
(src/unnamed/part_003 line 315). -/
def isExpired (now : Int) (l : Link) : Bool :=
  match l.expiresAt with
  | some e => decide (now > e)
  | none => false

/-- Outcome of resolving a code to a link. -/
inductive ResolveOutcome where
  /-- 404 `Link not found`. -/
  | notFound
  /-- 410 `Link has expired`. -/
  | expired
  /-- The active, non-expired link the code resolves to. -/
  | found (link : Link)
deriving Repr, DecidableEq

/-- Resolution (src/unnamed/part_003 lines 300-317): look up by code,
404 when no active match, 410 when the match has a past expiry. -/
def resolve (st : Store) (now : Int) (code : String) : ResolveOutcome :=
  match findLink st code with
  | none => .notFound
  | some link => if isExpired now link then .expired else .found link

/-- Request metadata captured for analytics: `req.ip`,
`req.get('User-Agent')`, `req.get('Referer')`. -/
structure RequestMeta where
  ip : Option String
  userAgent : Option String
  referer : Option String
deriving Repr, DecidableEq

/-- The Click row inserted by `prisma.click.create` (src/unnamed/part_003
lines 321-328): link id and request metadata; every other optional column
is left unset. -/
def mkClick (env : Env) (linkId : Nat) (meta : RequestMeta) : Click :=
  { id := env.newClickId
    linkId := linkId
    ip := meta.ip
    userAgent := meta.userAgent
    referer := meta.referer
    country := none
    city := none
    device := none
    browser := none
    os := none
    createdAt := env.now }

/-- `prisma.link.update({where: {id}, data: {totalClicks: {increment: 1}}})`
(src/unnamed/part_003 lines 329-332): bump the counter of the row with
the given primary key.  `id` is the `@id` column, so at most one row
matches; the first match is updated. -/
def incrementClicks : List Link → Nat → List Link
  | [], _ => []
  | l :: ls, i =>
    if l.id = i then { l with totalClicks := l.totalClicks + 1 } :: ls
    else l :: incrementClicks ls i

/-- The click-recording pair of writes (src/unnamed/part_003 lines
320-333): insert one Click row and increment the link's `totalClicks`. -/
def recordClick (st : Store) (env : Env) (link : Link) (meta : RequestMeta) : Store :=
  { links := incrementClicks st.links link.id
    clicks := st.clicks ++ [mkClick env link.id meta] }

/-- Outcome of the redirect handler. -/
inductive RedirectResult where
  /-- 302 redirect to the stored original URL. -/
  | redirected (url : String)
  /-- 404 `Link not found`. -/
  | notFound
  /-- 410 `Link has expired`. -/
  | expired
deriving Repr, DecidableEq

/-- HTTP status produced for each redirect outcome (src/unnamed/part_003
lines 311, 316, 335). -/
def redirectStatus : RedirectResult → Nat
  | .redirected _ => 302
  | .notFound => 404
  | .expired => 410

/-- The redirect handler (src/unnamed/part_003 lines 296-340): resolve
the code; on success record the click and respond with a redirect to
`link.originalUrl`; on failure respond 404/410 without touching the
store. -/
def redirect (st : Store) (env : Env) (code : String) (meta : RequestMeta) :
    RedirectResult × Store :=
  match resolve st env.now code with
  | .notFound => (.notFound, st)
  | .expired => (.expired, st)
  | .found link => (.redirected link.originalUrl, recordClick st env link meta)

/-! ### List (GET /api/links, src/unnamed/part_003 lines 170-203) -/

/-- Models JS `parseInt(s)` for base-10 inputs: skip leading whitespace,
optional sign, then a maximal run of leading decimal digits; `none`
stands for `NaN`.  (The hexadecimal `0x` form of `parseInt` is outside
the modelled fragment; no claim exercises it.) -/
def parseIntJS (s : String) : Option Int :=
  let cs := s.toList.dropWhile (fun c => c = ' ' || c = '\t' || c = '\n' || c = '\r')
  match cs with
  | '-' :: rest => (digits rest none).map (fun n => -(n : Int))
  | '+' :: rest => (digits rest none).map (fun n => (n : Int))
  | _ => (digits cs none).map (fun n => (n : Int))
where
  digits : List Char → Option Nat → Option Nat
    | [], acc => acc
    | c :: cs, acc =>
      if c.isDigit then digits cs (some ((acc.getD 0) * 10 + (c.toNat - '0'.toNat)))
      else acc

/-- JS `x || d` applied to a parsed number: `NaN` (`none`) and `0` are
falsy and give the default; every other value passes through. -/
def jsOrDefault (v : Option Int) (d : Int) : Int :=
  match v with
  | none => d
  | some n => if n = 0 then d else n

/-- `const page = parseInt(req.query.page as string) || 1`
(src/unnamed/part_003 line 172); an absent query parameter is
`undefined`, which `parseInt` turns into `NaN`. -/
def pageParam (q : Option String) : Int := jsOrDefault (q.bind parseIntJS) 1

/-- `const limit = parseInt(req.query.limit as string) || 10`
(src/unnamed/part_003 line 173). -/
def limitParam (q : Option String) : Int := jsOrDefault (q.bind parseIntJS) 10

/-- Insert into a list kept in descending `key` order. -/
def insertDesc {α : Type} (key : α → Int) (x : α) : List α → List α
  | [] => [x]
  | y :: ys => if key x ≤ key y then y :: insertDesc key x ys else x :: y :: ys

/-- Sort a list into descending `key` order (models Prisma's
`orderBy: { field: 'desc' }`; ties are broken arbitrarily). -/
def sortByDesc {α : Type} (key : α → Int) : List α → List α
  | [] => []
  | x :: xs => insertDesc key x (sortByDesc key xs)

/-- The payload of GET /api/links (src/unnamed/part_003 lines 190-198):
the page of links plus the echoed pagination parameters and the total
row count from `prisma.link.count()`.  (The derived
`pages: Math.ceil(total/limit)` field is thin arithmetic on these and is
not separately modelled.) -/
structure ListResult where
  links : List Link
  page : Int
  limit : Int
  total : Nat
deriving Repr, DecidableEq

/-- The list handler (src/unnamed/part_003 lines 170-203):
`skip = (page-1)*limit`, `findMany({skip, take: limit, orderBy:
{createdAt: 'desc'}})` alongside `link.count()`.  Prisma rejects a
negative `skip`, which the catch block turns into a 500; `none` stands
for that failure.  (Prisma's negative `take`, meaning take-from-the-end,
is outside the modelled fragment; no claim exercises it.) -/
def listLinks (st : Store) (pageQ limitQ : Option String) : Option ListResult :=
  let page := pageParam pageQ
  let limit := limitParam limitQ
  let skip := (page - 1) * limit
  if skip < 0 ∨ limit < 0 then none
  else
    some { links := ((sortByDesc (fun l => l.createdAt) st.links).drop skip.toNat).take limit.toNat
           page := page
           limit := limit
           total := st.links.length }

/-! ### Get (GET /api/links/:id, src/unnamed/part_003 lines 221-242) -/

/-- The get handler: `findUnique({where: {id}})` including the 100 most
recent clicks in descending creation order; `none` is the 404 case. -/
def getLink (st : Store) (id : Nat) : Option (Link × List Click) :=
  match st.links.find? (fun l => l.id = id) with
  | none => none
  | some l =>
    some (l, (sortByDesc (fun c => c.createdAt) (st.clicks.filter (fun c => c.linkId = l.id))).take 100)

/-! ### Analytics overview (GET /api/analytics/overview, src/unnamed/part_003 lines 352-401) -/

/-- Seven days in milliseconds (src/unnamed/part_003 line 360). -/
def sevenDaysMs : Int := 7 * 24 * 60 * 60 * 1000

/-- The analytics payload.  (`clicksOverTime` is a raw SQL day-bucketed
aggregate over the same `clicks` table; no claim depends on it and it is
not separately modelled.) -/
structure Overview where
  totalLinks : Nat
  totalClicks : Nat
  recentClicks : Nat
  topLinks : List Link
deriving Repr, DecidableEq

/-- The overview handler (src/unnamed/part_003 lines 352-401):
`link.count()`, `click.count()`, `click.count({createdAt: {gte: now-7d}})`
and the five links with the highest `totalClicks`. -/
def overview (now : Int) (st : Store) : Overview :=
  { totalLinks := st.links.length
    totalClicks := st.clicks.length
    recentClicks := (st.clicks.filter (fun c => now - sevenDaysMs ≤ c.createdAt)).length
    topLinks := (sortByDesc (fun l => (l.totalClicks : Int)) st.links).take 5 }

/-! ### Client-side form check (src/unnamed/part_001 lines 36-38) -/

/-- `LinkShortener.validateForm`: flags `Custom alias must be at least 3
characters` when the alias field is truthy (nonempty) and shorter than
3 characters. -/
def clientAliasTooShort (customAlias : String) : Bool :=
  (!customAlias.isEmpty) && decide (customAlias.length < 3)

/-! ### Reachable store states -/

/-- One in-scope operation, with the request inputs it consumes. -/
inductive Op where
  /-- POST /api/links. -/
  | createOp (env : Env) (body : CreateBody)
  /-- GET /s/:shortCode. -/
  | redirectOp (env : Env) (code : String) (meta : RequestMeta)
  /-- GET /api/links — the handler only reads the store. -/
  | listOp (pageQ limitQ : Option String)
  /-- GET /api/links/:id — the handler only reads the store. -/
  | getOp (id : Nat)
  /-- GET /api/analytics/overview — the handler only reads the store. -/
  | overviewOp (now : Int)

/-- The store after one operation.  Only create and redirect write;
list, get and overview perform reads only (src/unnamed/part_003:
their handlers call no mutating Prisma method). -/
def applyOp (st : Store) : Op → Store
  | .createOp env body => (createLink st env body).2
  | .redirectOp env code meta => (redirect st env code meta).2
  | .listOp _ _ => st
  | .getOp _ => st
  | .overviewOp _ => st

/-- Store states reachable from a fresh database by in-scope operations. -/
inductive Reachable : Store → Prop
  | init : Reachable emptyStore
  | step (st : Store) (op : Op) : Reachable st → Reachable (applyOp st op)

/-- The sum of the denormalized `totalClicks` counters. -/
def totalClicksSum (ls : List Link) : Nat := (ls.map Link.totalClicks).sum

end Linksly

namespace Linksly

/-! ### Concrete instances used by witnesses and counterexamples -/

/-- An active link with generated short code `abc` and no custom alias. -/
def linkA : Link :=
  { id := 1, originalUrl := "https://a.com", shortCode := "abc", customAlias := none,
    title := none, description := none, createdAt := 0, updatedAt := 0,
    expiresAt := none, isActive := true, totalClicks := 0 }

/-- A store holding just `linkA`. -/
def storeA : Store := { links := [linkA], clicks := [] }

/-- An active link whose expiry timestamp is 50. -/
def linkExpA : Link := { linkA with id := 2, shortCode := "exp", expiresAt := some 50 }

/-- A store holding just `linkExpA`. -/
def storeExpA : Store := { links := [linkExpA], clicks := [] }

/-- A sample environment. -/
def envA : Env := { now := 0, newLinkId := 1, newClickId := 1, generatedCode := "gen00001" }

/-- An environment whose generated short code collides with `linkA.shortCode`. -/
def envGenAbc : Env := { now := 0, newLinkId := 2, newClickId := 1, generatedCode := "abc" }

/-- Sample request metadata. -/
def metaA : RequestMeta :=
  { ip := some "203.0.113.7", userAgent := some "curl/8.0", referer := none }

/-- A create body whose URL has no scheme (the spec's own example input). -/
def bodySchemeless : CreateBody :=
  { originalUrl := "example.com/a/b", customAlias := none, title := none,
    description := none, expiresAt := none }

/-- A create body whose URL does not parse at all. -/
def bodyNotUrl : CreateBody :=
  { originalUrl := "nota url", customAlias := none, title := none,
    description := none, expiresAt := none }

/-- A create body requesting the alias `abc` (equal to `linkA`'s short code). -/
def bodyAliasAbc : CreateBody :=
  { originalUrl := "https://b.com", customAlias := some "abc", title := none,
    description := none, expiresAt := none }

/-- A create body with no alias. -/
def bodyNoAlias : CreateBody :=
  { originalUrl := "https://b.com", customAlias := none, title := none,
    description := none, expiresAt := none }

/-- A create body with the two-character alias `ab`. -/
def bodyShortAlias : CreateBody :=
  { originalUrl := "https://example.com", customAlias := some "ab", title := none,
    description := none, expiresAt := none }

/-- A create body with the empty-string alias. -/
def bodyEmptyAlias : CreateBody :=
  { originalUrl := "https://example.com", customAlias := some "", title := none,
    description := none, expiresAt := none }

/-- A create body with the fresh alias `myalias`. -/
def bodyMyAlias : CreateBody :=
  { originalUrl := "https://example.com", customAlias := some "myalias", title := none,
    description := none, expiresAt := none }

/-- The older of two links with distinct creation times. -/
def link1W : Link := { linkA with id := 10, shortCode := "one1", createdAt := 0, updatedAt := 0 }

/-- The newer of two links with distinct creation times. -/
def link2W : Link := { linkA with id := 11, shortCode := "two2", createdAt := 5, updatedAt := 5 }

/-- A store holding the two links, oldest first. -/
def storeTwo : Store := { links := [link1W, link2W], clicks := [] }

/-- The page GET /api/links returns on `storeTwo` with default params. -/
def listResultW : ListResult :=
  { links := [link2W, link1W], page := 1, limit := 10, total := 2 }

/-- Create body used to build a concrete reachable store. -/
def bodyW3 : CreateBody :=
  { originalUrl := "https://w3.com", customAlias := none, title := none,
    description := none, expiresAt := none }

/-- Environment of the create step of the concrete reachable store. -/
def envW3 : Env := { now := 0, newLinkId := 7, newClickId := 0, generatedCode := "genw3456" }

/-- Environment of the redirect step of the concrete reachable store. -/
def envW3b : Env := { now := 1, newLinkId := 0, newClickId := 9, generatedCode := "zzzz" }

/-- A concrete store reached by one create followed by one redirect. -/
def storeW3 : Store :=
  applyOp (applyOp emptyStore (Op.createOp envW3 bodyW3)) (Op.redirectOp envW3b "genw3456" metaA)

/-! ### Helper lemmas -/

/-- `find?` over an append skips a first segment with no match. -/
theorem find_skip_unmatched {α : Type} (p : α → Bool) (l1 l2 : List α)
    (h : l1.find? p = none) : (l1 ++ l2).find? p = l2.find? p := by
  induction l1 with
  | nil => rfl
  | cons x xs ih =>
    cases hp : p x with
    | true => simp [List.find?_cons, hp] at h
    | false =>
      simp only [List.cons_append, List.find?_cons, hp] at h ⊢
      exact ih h

/-- With pairwise-distinct ids, bumping the row with a given id is a
pointwise map over the table. -/
theorem incrementClicks_eq_map (ls : List Link) (i : Nat)
    (h : (ls.map Link.id).Nodup) :
    incrementClicks ls i
      = ls.map (fun l => if l.id = i then { l with totalClicks := l.totalClicks + 1 } else l) := by
  induction ls with
  | nil => rfl
  | cons x xs ih =>
    simp only [List.map_cons, List.nodup_cons] at h
    obtain ⟨hx, hxs⟩ := h
    by_cases hxi : x.id = i
    · subst hxi
      simp only [incrementClicks, if_pos rfl, List.map_cons]
      have hall : ∀ l ∈ xs,
          (if l.id = x.id then { l with totalClicks := l.totalClicks + 1 } else l) = l := by
        intro l hl
        rw [if_neg]
        intro heq
        exact hx (heq ▸ List.mem_map_of_mem Link.id hl)
      rw [List.map_congr_left hall, List.map_id' xs]
      simp
    · simp only [incrementClicks, if_neg hxi, List.map_cons]
      rw [ih hxs]

/-- Bumping an id that occurs in the table raises the counter sum by 1. -/
theorem totalClicksSum_incrementClicks (ls : List Link) (i : Nat)
    (h : ∃ l, l ∈ ls ∧ l.id = i) :
    totalClicksSum (incrementClicks ls i) = totalClicksSum ls + 1 := by
  induction ls with
  | nil =>
    obtain ⟨l, hl, _⟩ := h
    cases hl
  | cons x xs ih =>
    by_cases hxi : x.id = i
    · simp only [incrementClicks, if_pos hxi, totalClicksSum, List.map_cons, List.sum_cons]
      omega
    · obtain ⟨l, hl, hli⟩ := h
      rcases List.mem_cons.mp hl with rfl | hl2
      · exact absurd hli hxi
      · simp only [incrementClicks, if_neg hxi, totalClicksSum, List.map_cons, List.sum_cons]
        have := ih ⟨l, hl2, hli⟩
        simp only [totalClicksSum] at this
        omega

end Linksly

namespace Linksly

/-! ### C4 — scheme-less URLs and Create -/

/-- C4 counterexample: Create with `originalUrl = "example.com/a/b"` does
NOT succeed — `createLinkSchema`'s `.url()` check (the WHATWG URL
constructor) rejects a scheme-less string before `formatUrl` ever runs,
so the handler answers 400 `Invalid input data` and persists nothing. -/
theorem schemeless_url_rejected_cex :
    (createLink emptyStore envA bodySchemeless).1 = CreateResult.validationError
    ∧ (createLink emptyStore envA bodySchemeless).2 = emptyStore
    ∧ createStatus (createLink emptyStore envA bodySchemeless).1 = 400
    ∧ formatUrl "example.com/a/b" = "https://example.com/a/b" := by
  decide

/-- C4 (amended): every `originalUrl` that does not parse as an absolute
URL — in particular every scheme-less one — is rejected by the schema
validation step with a ValidationError (400) and the store is left
unchanged; the `https://` prefixing of `formatUrl` is reached only after
the schema has already accepted the URL. -/
theorem create_rejects_unparsable_url (st : Store) (env : Env) (body : CreateBody)
    (h : urlParses body.originalUrl = false) :
    createLink st env body = (CreateResult.validationError, st) := by
  unfold createLink
  rw [if_pos h]

/-- Witness for `create_rejects_unparsable_url` at a concrete input. -/
theorem create_rejects_unparsable_url_witness :
    urlParses "nota url" = false
    ∧ createLink storeA envA bodyNotUrl = (CreateResult.validationError, storeA) :=
  ⟨by decide, create_rejects_unparsable_url storeA envA bodyNotUrl (by decide)⟩

/-! ### C6 — generated-code collision surfaces as 500, not 400 -/

/-- C6 counterexample: with `linkA` (shortCode `abc`) in the store and a
generated code `abc`, Create without an alias hits the store uniqueness
violation and is surfaced as 500 `Internal server error` — the catch
block maps only `ZodError` to 400, so this is NOT the 400 conflict
category used for a taken alias. -/
theorem generated_code_collision_cex :
    (createLink storeA envGenAbc bodyNoAlias).1 = CreateResult.storeError
    ∧ createStatus (createLink storeA envGenAbc bodyNoAlias).1 = 500
    ∧ ¬ createStatus (createLink storeA envGenAbc bodyNoAlias).1 = 400
    ∧ (createLink storeA envGenAbc bodyNoAlias).1 ≠ CreateResult.aliasConflict := by
  decide

/-- C6 (amended): when no alias is supplied, the URL passes both
validation gates and the generated code collides with an existing
short code, Create fails with the store-level error, which the handler
surfaces as an unexpected 500 — not as the 400 used for a taken alias. -/
theorem generated_code_collision_is_500 (st : Store) (env : Env) (body : CreateBody)
    (ha : body.customAlias = none)
    (hu1 : urlParses body.originalUrl = true)
    (hu2 : urlParses (formatUrl body.originalUrl) = true)
    (hcol : ∃ l, l ∈ st.links ∧ l.shortCode = env.generatedCode) :
    (createLink st env body).1 = CreateResult.storeError
    ∧ createStatus (createLink st env body).1 = 500
    ∧ createStatus CreateResult.aliasConflict = 400 := by
  obtain ⟨l, hl, hlc⟩ := hcol
  have hany : st.links.any (fun x => x.shortCode == env.generatedCode) = true :=
    List.any_eq_true.mpr ⟨l, hl, by simp [hlc]⟩
  unfold createLink
  rw [if_neg (by simp [hu1]), if_neg (by simp [isValidUrl, hu2])]
  simp only [ha, Option.getD_none, Option.isSome_none]
  rw [if_neg (by simp), if_pos (Or.inl (by simpa using hany))]
  exact ⟨rfl, rfl, rfl⟩

/-- Witness for `generated_code_collision_is_500` at a concrete input. -/
theorem generated_code_collision_is_500_witness :
    bodyNoAlias.customAlias = none
    ∧ urlParses bodyNoAlias.originalUrl = true
    ∧ (∃ l, l ∈ storeA.links ∧ l.shortCode = envGenAbc.generatedCode)
    ∧ (createLink storeA envGenAbc bodyNoAlias).1 = CreateResult.storeError
    ∧ createStatus (createLink storeA envGenAbc bodyNoAlias).1 = 500
    ∧ createStatus CreateResult.aliasConflict = 400 := by
  refine ⟨rfl, by decide, ⟨linkA, by decide, by decide⟩, ?_⟩
  exact generated_code_collision_is_500 storeA envGenAbc bodyNoAlias rfl (by decide)
    (by decide) ⟨linkA, by decide, by decide⟩

/-! ### C7 — the server accepts aliases shorter than 3 characters -/

/-- C7: the repository's own client-side check
(`LinkShortener.validateForm`) rejects the alias `ab` as too short, yet
the server's `createLinkSchema` carries no minimum length, so the create
handler answers 201 and persists the Link — contradicting the claimed
400 ValidationError.  Failing input: POST /api/links with
`{originalUrl: "https://example.com", customAlias: "ab"}` on an empty
store. -/
theorem short_alias_accepted_by_server :
    clientAliasTooShort "ab" = true
    ∧ createStatus (createLink emptyStore envA bodyShortAlias).1 = 201
    ∧ (createLink emptyStore envA bodyShortAlias).2.links = [newLink envA bodyShortAlias "ab"]
    ∧ (newLink envA bodyShortAlias "ab").customAlias = some "ab"
    ∧ (newLink envA bodyShortAlias "ab").shortCode = "ab" := by
  decide

/-! ### C9 — alias becomes the short code, but only when nonempty -/

/-- C9 counterexample: the empty-string alias is supplied and accepted
(the zod schema allows any string and the row is persisted with
`customAlias = ""`), yet JS `customAlias || nanoid(8)` is falsy on `""`,
so a random short code IS generated and `shortCode ≠ customAlias`. -/
theorem empty_alias_generates_code_cex :
    (createLink emptyStore envA bodyEmptyAlias).1
      = CreateResult.created (newLink envA bodyEmptyAlias "gen00001")
    ∧ (newLink envA bodyEmptyAlias "gen00001").customAlias = some ""
    ∧ (newLink envA bodyEmptyAlias "gen00001").shortCode = "gen00001"
    ∧ ¬ (newLink envA bodyEmptyAlias "gen00001").shortCode = "" := by
  decide

/-- C9 (amended): whenever a NONEMPTY custom alias is supplied and the
create succeeds, the persisted row's `shortCode` equals the alias and the
alias also occupies the `customAlias` column. -/
theorem nonempty_alias_is_shortCode (st : Store) (env : Env) (body : CreateBody)
    (a : String) (l : Link) (st2 : Store)
    (ha : body.customAlias = some a) (hne : a ≠ "")
    (h : createLink st env body = (CreateResult.created l, st2)) :
    l.shortCode = a ∧ l.customAlias = some a := by
  unfold createLink at h
  rw [ha] at h
  simp only [Option.getD_some] at h
  rw [if_neg hne] at h
  split at h
  · simp at h
  · split at h
    · simp at h
    · split at h
      · simp at h
      · split at h
        · simp at h
        · simp only [Prod.mk.injEq, CreateResult.created.injEq] at h
          obtain ⟨hl, -⟩ := h
          subst hl
          exact ⟨rfl, ha⟩

/-- Witness for `nonempty_alias_is_shortCode` at a concrete input. -/
theorem nonempty_alias_is_shortCode_witness :
    createLink emptyStore envA bodyMyAlias
      = (CreateResult.created (newLink envA bodyMyAlias "myalias"),
         { emptyStore with links := [newLink envA bodyMyAlias "myalias"] })
    ∧ (newLink envA bodyMyAlias "myalias").shortCode = "myalias"
    ∧ (newLink envA bodyMyAlias "myalias").customAlias = some "myalias" :=
  ⟨by decide,
   nonempty_alias_is_shortCode emptyStore envA bodyMyAlias "myalias"
     (newLink envA bodyMyAlias "myalias")
     { emptyStore with links := [newLink envA bodyMyAlias "myalias"] }
     rfl (by decide) (by decide)⟩

/-! ### C10 — failed redirects leave the store unchanged -/

/-- C10: a redirect that fails — 404 (no active match) or 410 (expired) —
inserts no Click row and modifies no counter: the store is returned
unchanged. -/
theorem redirect_failure_no_writes (st : Store) (env : Env) (code : String)
    (meta : RequestMeta)
    (h : (redirect st env code meta).1 = RedirectResult.notFound
       ∨ (redirect st env code meta).1 = RedirectResult.expired) :
    (redirect st env code meta).2 = st := by
  unfold redirect at h ⊢
  cases hr : resolve st env.now code with
  | notFound => rfl
  | expired => rfl
  | found link =>
    rw [hr] at h
    simp at h

/-- Witness for `redirect_failure_no_writes` at a concrete input. -/
theorem redirect_failure_no_writes_witness :
    (redirect storeA envA "nope" metaA).1 = RedirectResult.notFound
    ∧ (redirect storeA envA "nope" metaA).2 = storeA :=
  ⟨by decide, redirect_failure_no_writes storeA envA "nope" metaA (Or.inl (by decide))⟩

end Linksly

namespace Linksly

/-! ### C1 — a successful redirect records exactly one click -/

/-- C1: for a code that resolves to an active, non-expired link (link ids
pairwise distinct, as the `@id` primary key guarantees), the redirect
handler responds with a redirect to the link's `originalUrl`, appends
exactly one Click row populated from the request metadata (ip,
user-agent, referer) with every other optional column unset, and
increments exactly that link's `totalClicks` by 1, leaving every other
row unchanged. -/
theorem redirect_success_records_one_click (st : Store) (env : Env) (code : String)
    (meta : RequestMeta) (link : Link)
    (hfind : findLink st code = some link)
    (hexp : isExpired env.now link = false)
    (hids : (st.links.map Link.id).Nodup) :
    (redirect st env code meta).1 = RedirectResult.redirected link.originalUrl
    ∧ (redirect st env code meta).2.clicks
        = st.clicks ++
          [{ id := env.newClickId, linkId := link.id, ip := meta.ip,
             userAgent := meta.userAgent, referer := meta.referer, country := none,
             city := none, device := none, browser := none, os := none,
             createdAt := env.now }]
    ∧ (redirect st env code meta).2.links
        = st.links.map
            (fun l => if l.id = link.id then { l with totalClicks := l.totalClicks + 1 } else l) := by
  have hres : resolve st env.now code = ResolveOutcome.found link := by
    unfold resolve
    rw [hfind]
    simp [hexp]
  unfold redirect
  rw [hres]
  refine ⟨rfl, rfl, ?_⟩
  exact incrementClicks_eq_map st.links link.id hids

/-- Witness for `redirect_success_records_one_click` at a concrete input. -/
theorem redirect_success_witness :
    findLink storeA "abc" = some linkA
    ∧ isExpired envA.now linkA = false
    ∧ (storeA.links.map Link.id).Nodup
    ∧ (redirect storeA envA "abc" metaA).1 = RedirectResult.redirected linkA.originalUrl
    ∧ (redirect storeA envA "abc" metaA).2.clicks
        = storeA.clicks ++
          [{ id := envA.newClickId, linkId := linkA.id, ip := metaA.ip,
             userAgent := metaA.userAgent, referer := metaA.referer, country := none,
             city := none, device := none, browser := none, os := none,
             createdAt := envA.now }]
    ∧ (redirect storeA envA "abc" metaA).2.links
        = storeA.links.map
            (fun l => if l.id = linkA.id then { l with totalClicks := l.totalClicks + 1 } else l) := by
  refine ⟨by decide, by decide, by decide, ?_⟩
  exact redirect_success_records_one_click storeA envA "abc" metaA linkA
    (by decide) (by decide) (by decide)

/-! ### C2 — resolution outcome classification -/

/-- C2: resolution fails with NotFound exactly when no active link's
`shortCode` or `customAlias` equals the code; when the lookup finds a
link whose `expiresAt` is set and in the past, resolution fails with the
distinct Expired outcome although the link still exists in the store and
is active; the HTTP boundary maps NotFound to 404 and Expired to 410. -/
theorem resolve_classification (st : Store) (now : Int) (code : String) :
    (resolve st now code = ResolveOutcome.notFound ↔
      ¬ ∃ l, l ∈ st.links ∧ (l.shortCode = code ∨ l.customAlias = some code) ∧ l.isActive = true)
    ∧ (∀ link e, findLink st code = some link → link.expiresAt = some e → now > e →
        resolve st now code = ResolveOutcome.expired ∧ link ∈ st.links ∧ link.isActive = true)
    ∧ ResolveOutcome.expired ≠ ResolveOutcome.notFound
    ∧ redirectStatus RedirectResult.notFound = 404
    ∧ redirectStatus RedirectResult.expired = 410 := by
  refine ⟨?_, ?_, by simp, rfl, rfl⟩
  · have hnf : resolve st now code = ResolveOutcome.notFound ↔ findLink st code = none := by
      cases hf : findLink st code with
      | none => simp [resolve, hf]
      | some l =>
        simp only [resolve, hf]
        constructor
        · intro h
          split at h <;> simp at h
        · intro h
          simp at h
    rw [hnf, findLink, List.find?_eq_none]
    simp only [Bool.and_eq_true, Bool.or_eq_true, beq_iff_eq, not_exists, not_and]
  · intro link e hfind he hgt
    have hexp : isExpired now link = true := by
      unfold isExpired
      rw [he]
      exact decide_eq_true hgt
    refine ⟨?_, List.mem_of_find?_eq_some hfind, ?_⟩
    · unfold resolve
      rw [hfind]
      simp [hexp]
    · have hp := List.find?_some hfind
      simp only [Bool.and_eq_true] at hp
      exact hp.2

/-- Witness for `resolve_classification` at a concrete input: an active
link with expiry 50 resolved at time 100. -/
theorem resolve_classification_witness :
    resolve storeExpA 100 "exp" = ResolveOutcome.expired
    ∧ linkExpA ∈ storeExpA.links
    ∧ linkExpA.isActive = true :=
  (resolve_classification storeExpA 100 "exp").2.1 linkExpA 50 (by decide) rfl (by decide)

end Linksly

namespace Linksly

/-! ### C5 — alias conflict and the create-then-resolve round trip -/

/-- C5 counterexample: the alias `abc` is held by NO existing link as a
`customAlias`, yet Create fails — `linkA`'s generated `shortCode` is
`abc`, the pre-check queries only the `customAlias` column, and the
insert then violates the `shortCode` uniqueness constraint, surfacing as
a 500 store error instead of the claimed success. -/
theorem alias_equal_to_shortcode_cex :
    storeA.links.all (fun l => !(l.customAlias == some "abc")) = true
    ∧ createLink storeA envA bodyAliasAbc = (CreateResult.storeError, storeA)
    ∧ createStatus (createLink storeA envA bodyAliasAbc).1 = 500 := by
  decide

/-- C5 (amended): for a nonempty alias and a URL passing both validation
gates — when an existing link already holds the alias as its
`customAlias`, Create fails with the conflict error; when NO existing
link holds the alias as `customAlias` or as `shortCode`, Create succeeds
(persisting the alias as both `shortCode` and `customAlias`, counter 0)
and resolving the alias on the updated store, at any time at which the
new link is not expired, returns exactly that link. -/
theorem create_alias_conflict_and_roundtrip (st : Store) (env : Env) (body : CreateBody)
    (a : String)
    (ha : body.customAlias = some a) (hne : a ≠ "")
    (hu1 : urlParses body.originalUrl = true)
    (hu2 : urlParses (formatUrl body.originalUrl) = true) :
    ((∃ l, l ∈ st.links ∧ l.customAlias = some a) →
      (createLink st env body).1 = CreateResult.aliasConflict)
    ∧ ((∀ l, l ∈ st.links → l.customAlias ≠ some a ∧ l.shortCode ≠ a) →
        createLink st env body
          = (CreateResult.created (newLink env body a),
             { st with links := st.links ++ [newLink env body a] })
        ∧ (newLink env body a).shortCode = a
        ∧ (newLink env body a).customAlias = some a
        ∧ (newLink env body a).totalClicks = 0
        ∧ ∀ t, isExpired t (newLink env body a) = false →
            resolve { st with links := st.links ++ [newLink env body a] } t a
              = ResolveOutcome.found (newLink env body a)) := by
  have hg1 : ¬ (urlParses body.originalUrl = false) := by simp [hu1]
  have hg2 : ¬ (isValidUrl (formatUrl body.originalUrl) = false) := by simp [isValidUrl, hu2]
  constructor
  · rintro ⟨l, hl, hla⟩
    have hany : st.links.any (fun x => x.customAlias == some a) = true :=
      List.any_eq_true.mpr ⟨l, hl, by simp [hla]⟩
    unfold createLink
    rw [if_neg hg1, if_neg hg2]
    simp only [ha, Option.getD_some]
    rw [if_pos ⟨hne, hany⟩]
  · intro hall
    have hna : st.links.any (fun x => x.customAlias == some a) = false := by
      rw [List.any_eq_false]
      intro x hx
      simp [(hall x hx).1]
    have hns : st.links.any (fun x => x.shortCode == a) = false := by
      rw [List.any_eq_false]
      intro x hx
      simp [(hall x hx).2]
    have hcreate : createLink st env body
        = (CreateResult.created (newLink env body a),
           { st with links := st.links ++ [newLink env body a] }) := by
      unfold createLink
      rw [if_neg hg1, if_neg hg2]
      simp only [ha, Option.getD_some, Option.isSome_some]
      rw [if_neg hne, if_neg (by simp [hna]), if_neg (by simp [hns, hna])]
    refine ⟨hcreate, rfl, ha, rfl, ?_⟩
    intro t ht
    have hnone : st.links.find?
        (fun l => (l.shortCode == a || l.customAlias == some a) && l.isActive) = none := by
      rw [List.find?_eq_none]
      intro x hx
      simp [(hall x hx).1, (hall x hx).2]
    have hfound : findLink { st with links := st.links ++ [newLink env body a] } a
        = some (newLink env body a) := by
      unfold findLink
      rw [show ({ st with links := st.links ++ [newLink env body a] } : Store).links
            = st.links ++ [newLink env body a] from rfl]
      rw [find_skip_unmatched _ _ _ hnone]
      simp [newLink]
    simp only [resolve, hfound]
    simp [ht]

/-- Witness for `create_alias_conflict_and_roundtrip` at a concrete
input: a fresh alias on the empty store. -/
theorem create_alias_conflict_and_roundtrip_witness :
    createLink emptyStore envA bodyMyAlias
      = (CreateResult.created (newLink envA bodyMyAlias "myalias"),
         { emptyStore with links := emptyStore.links ++ [newLink envA bodyMyAlias "myalias"] })
    ∧ resolve { emptyStore with
          links := emptyStore.links ++ [newLink envA bodyMyAlias "myalias"] } 0 "myalias"
        = ResolveOutcome.found (newLink envA bodyMyAlias "myalias") := by
  have h := (create_alias_conflict_and_roundtrip emptyStore envA bodyMyAlias "myalias"
    rfl (by decide) (by decide) (by decide)).2 (by intro l hl; cases hl)
  exact ⟨h.1, h.2.2.2.2 0 (by decide)⟩

end Linksly

namespace Linksly

/-! ### C8 — list ordering, total count, and parameter defaulting -/

/-- Membership in a descending-order insertion. -/
theorem mem_insertDesc {α : Type} (key : α → Int) (x z : α) (l : List α) :
    z ∈ insertDesc key x l ↔ z = x ∨ z ∈ l := by
  induction l with
  | nil => simp [insertDesc]
  | cons y ys ih =>
    simp only [insertDesc]
    split
    · simp only [List.mem_cons, ih]
      tauto
    · simp only [List.mem_cons]

/-- Descending-order insertion preserves descending pairwise order. -/
theorem pairwise_insertDesc {α : Type} (key : α → Int) (x : α) (l : List α)
    (h : List.Pairwise (fun p q => key q ≤ key p) l) :
    List.Pairwise (fun p q => key q ≤ key p) (insertDesc key x l) := by
  induction l with
  | nil => simp [insertDesc]
  | cons y ys ih =>
    rw [List.pairwise_cons] at h
    obtain ⟨hy, hys⟩ := h
    simp only [insertDesc]
    split
    · rename_i hxy
      rw [List.pairwise_cons]
      refine ⟨?_, ih hys⟩
      intro z hz
      rcases (mem_insertDesc key x z ys).mp hz with rfl | hz2
      · exact hxy
      · exact hy z hz2
    · rename_i hxy
      rw [List.pairwise_cons]
      refine ⟨?_, List.pairwise_cons.mpr ⟨hy, hys⟩⟩
      intro z hz
      rcases List.mem_cons.mp hz with rfl | hz2
      · exact le_of_not_le hxy
      · exact le_trans (hy z hz2) (le_of_not_le hxy)

/-- The descending sort is pairwise descending. -/
theorem pairwise_sortByDesc {α : Type} (key : α → Int) (l : List α) :
    List.Pairwise (fun p q => key q ≤ key p) (sortByDesc key l) := by
  induction l with
  | nil => exact List.Pairwise.nil
  | cons x xs ih => exact pairwise_insertDesc key x _ ih

/-- C8 counterexample: a negative `page` (or `limit`) is NOT defaulted —
`parseInt(q) || d` treats only `NaN` and `0` as falsy, so `-2` and `-5`
pass through, and the resulting negative skip makes the handler fail
(500) rather than serve the default first page. -/
theorem negative_page_not_defaulted_cex :
    pageParam (some "-2") = -2
    ∧ ¬ pageParam (some "-2") = 1
    ∧ limitParam (some "-5") = -5
    ∧ ¬ limitParam (some "-5") = 10
    ∧ listLinks emptyStore (some "-2") none = none := by
  decide

/-- C8 (amended): every successfully served page is ordered by creation
time descending and is accompanied by the total link count; the `page`
and `limit` parameters default to 1 and 10 when absent, non-numeric, or
zero (negative values pass through unchanged). -/
theorem listLinks_sorted_and_defaults :
    (∀ st pageQ limitQ r, listLinks st pageQ limitQ = some r →
        List.Pairwise (fun x y : Link => y.createdAt ≤ x.createdAt) r.links
        ∧ r.total = st.links.length)
    ∧ (∀ q : Option String, q.bind parseIntJS = none ∨ q.bind parseIntJS = some 0 →
        pageParam q = 1 ∧ limitParam q = 10) := by
  constructor
  · intro st pageQ limitQ r h
    simp only [listLinks] at h
    split at h
    · cases h
    · rw [Option.some.injEq] at h
      subst h
      constructor
      · exact (pairwise_sortByDesc (fun l => l.createdAt) st.links).sublist
          ((List.take_sublist _ _).trans (List.drop_sublist _ _))
      · rfl
  · intro q hq
    rcases hq with h | h <;> simp [pageParam, limitParam, jsOrDefault, h]

/-- Witness for `listLinks_sorted_and_defaults` at a concrete input: the
two-link store served with default parameters. -/
theorem listLinks_sorted_and_defaults_witness :
    (List.Pairwise (fun x y : Link => y.createdAt ≤ x.createdAt) listResultW.links
      ∧ listResultW.total = storeTwo.links.length)
    ∧ (pageParam none = 1 ∧ limitParam none = 10) :=
  ⟨listLinks_sorted_and_defaults.1 storeTwo none none listResultW (by decide),
   listLinks_sorted_and_defaults.2 none (Or.inl rfl)⟩

end Linksly

namespace Linksly

/-! ### C3 — the denormalized counter matches the Click-row count -/

/-- Every branch of the create handler either leaves the store unchanged
or appends exactly one link with a zero counter. -/
theorem createLink_writes (st : Store) (env : Env) (body : CreateBody) :
    (createLink st env body).2 = st
    ∨ ∃ l, l.totalClicks = 0
        ∧ (createLink st env body).2 = { st with links := st.links ++ [l] } := by
  simp only [createLink]
  repeat' split
  all_goals first
    | exact Or.inl rfl
    | exact Or.inr ⟨newLink env body _, rfl, rfl⟩

/-- The redirect handler either leaves the store unchanged or appends one
click and increments the counter of a row found by the lookup. -/
theorem redirect_writes (st : Store) (env : Env) (code : String) (meta : RequestMeta) :
    (redirect st env code meta).2 = st
    ∨ ∃ link, findLink st code = some link
        ∧ (redirect st env code meta).2
            = { links := incrementClicks st.links link.id,
                clicks := st.clicks ++ [mkClick env link.id meta] } := by
  unfold redirect
  cases hr : resolve st env.now code with
  | notFound => exact Or.inl rfl
  | expired => exact Or.inl rfl
  | found link =>
    have hfl : findLink st code = some link := by
      unfold resolve at hr
      cases hf : findLink st code with
      | none =>
        rw [hf] at hr
        simp at hr
      | some l =>
        rw [hf] at hr
        by_cases he : isExpired env.now l = true
        · simp [he] at hr
        · simp [he] at hr
          rw [hr]
    exact Or.inr ⟨link, hfl, rfl⟩

/-- Appending a zero-counter link keeps the counter sum. -/
theorem totalClicksSum_snoc_zero (ls : List Link) (l : Link) (h : l.totalClicks = 0) :
    totalClicksSum (ls ++ [l]) = totalClicksSum ls := by
  simp [totalClicksSum, h]

/-- In every reachable store, the number of Click rows equals the sum of
the links' denormalized `totalClicks` counters. -/
theorem reachable_counter_consistent (st : Store) (h : Reachable st) :
    st.clicks.length = totalClicksSum st.links := by
  induction h with
  | init => rfl
  | step st1 op hst ih =>
    cases op with
    | createOp env body =>
      rcases createLink_writes st1 env body with hw | ⟨l, hl0, hw⟩
      · simpa [applyOp, hw] using ih
      · simp only [applyOp, hw]
        rw [totalClicksSum_snoc_zero st1.links l hl0]
        exact ih
    | redirectOp env code meta =>
      rcases redirect_writes st1 env code meta with hw | ⟨link, hfl, hw⟩
      · simpa [applyOp, hw] using ih
      · simp only [applyOp, hw]
        rw [totalClicksSum_incrementClicks st1.links link.id
          ⟨link, List.mem_of_find?_eq_some hfl, rfl⟩]
        simp [ih]
    | listOp pageQ limitQ => simpa [applyOp] using ih
    | getOp i => simpa [applyOp] using ih
    | overviewOp t => simpa [applyOp] using ih

/-- C3: in every store state reachable by the in-scope operations,
Overview's `totalClicks` equals the count of Click rows, and that count
equals the sum over all links of their `totalClicks` counters. -/
theorem overview_counter_consistency (st : Store) (h : Reachable st) (now : Int) :
    (overview now st).totalClicks = st.clicks.length
    ∧ st.clicks.length = totalClicksSum st.links :=
  ⟨rfl, reachable_counter_consistent st h⟩

/-- Witness for `overview_counter_consistency` on a concrete reachable
store: one create followed by one redirect. -/
theorem overview_counter_consistency_witness :
    Reachable storeW3
    ∧ (overview 2 storeW3).totalClicks = storeW3.clicks.length
    ∧ storeW3.clicks.length = totalClicksSum storeW3.links :=
  ⟨Reachable.step (applyOp emptyStore (Op.createOp envW3 bodyW3))
      (Op.redirectOp envW3b "genw3456" metaA)
      (Reachable.step emptyStore (Op.createOp envW3 bodyW3) Reachable.init),
   overview_counter_consistency storeW3
     (Reachable.step (applyOp emptyStore (Op.createOp envW3 bodyW3))
        (Op.redirectOp envW3b "genw3456" metaA)
        (Reachable.step emptyStore (Op.createOp envW3 bodyW3) Reachable.init)) 2⟩

end Linksly
